import Mathlib

/-
Shallow embedding of the GWFrames `Scri.hpp` data model (DataGrid, Modes,
SliceOfScri, SuperMomenta) and of the `WaveformAtAPointFT` member functions
defined in `WaveformAtAPointFT.cpp`.

C++ `double` is modelled as `ℝ`, `std::complex<double>` as `ℂ`, `int` as `ℤ`
(sizes passed to `std::vector` constructors, which are non-negative in every
use, as `ℕ`), `std::vector` as `List`, and a throwing operation as a function
into `Except GWError _`.
-/

namespace GWFrames

/-- The error conditions thrown by the embedded code (`GWFrames_IndexOutOfBounds`,
`GWFrames_NotYetImplemented`, `GWFrames_VectorSizeMismatch`,
`GWFrames_EmptyIntersection`, `GWFrames_ValueError` in `Errors.hpp`);
`VectorSizeMismatch` stands for the spec's shape-mismatch class (which includes
mismatched spins in an operation requiring equal spin) and `ValueError` for its
numeric-domain class (division by a zero-valued grid sample). -/
inductive GWError where
  | IndexOutOfBounds
  | NotYetImplemented
  | VectorSizeMismatch
  | EmptyIntersection
  | ValueError
  deriving DecidableEq, Repr

/-- `DataGrid` from `Scri.hpp`: complex spin-weighted data on the sphere in an
equi-angular representation, with `n_theta * n_phi` points including the poles.
Fields mirror the private data members `s`, `n_theta`, `n_phi`, `data`. -/
structure DataGrid where
  s : ℤ
  n_theta : ℤ
  n_phi : ℤ
  data : List ℂ

/-- The size constructor
`DataGrid(const int size=0) : s(0), n_theta(std::sqrt(size)), n_phi(std::sqrt(size)), data(size)`.
`std::sqrt` of an `int`, converted back to `int`, truncates: it is the integer
square root `Nat.sqrt`.  The vector is filled with `size` zeros. -/
def DataGrid.ofSize (size : ℕ) : DataGrid :=
  { s := 0, n_theta := (Nat.sqrt size : ℤ), n_phi := (Nat.sqrt size : ℤ),
    data := List.replicate size 0 }

/-- `DataGrid::SetSpin(const int ess) { s=ess; return *this; }`. -/
def DataGrid.SetSpin (d : DataGrid) (ess : ℤ) : DataGrid := { d with s := ess }

/-- `DataGrid::SetNTheta(const int N_theta) { n_theta=N_theta; return *this; }`;
the data vector is not resized. -/
def DataGrid.SetNTheta (d : DataGrid) (N_theta : ℤ) : DataGrid := { d with n_theta := N_theta }

/-- `DataGrid::SetNPhi(const int N_phi) { n_phi=N_phi; return *this; }`;
the data vector is not resized. -/
def DataGrid.SetNPhi (d : DataGrid) (N_phi : ℤ) : DataGrid := { d with n_phi := N_phi }

/-- `DataGrid::size() const { return data.size(); }`. -/
def DataGrid.size (d : DataGrid) : ℕ := d.data.length

/-- Modelled from the spec: the body of
`DataGrid(const int Spin, const int N_theta, const int N_phi, const std::vector<std::complex<double>>& D)`
is in `Scri.cpp`, which is not among the given sources.  Per the data model it
stores the given spin, dimensions, and sample sequence. -/
def DataGrid.ofSpinShapeData (Spin N_theta N_phi : ℤ) (D : List ℂ) : DataGrid :=
  { s := Spin, n_theta := N_theta, n_phi := N_phi, data := D }

/-- The spec's `SpinWeightedGrid` shape invariant: sample count equals
`n_theta * n_phi`. -/
def DataGrid.invariant (d : DataGrid) : Prop :=
  (d.data.length : ℤ) = d.n_theta * d.n_phi

/-- `Modes` from `Scri.hpp`: spin-weighted spherical-harmonic mode
representation; all modes present, stored in the order
(0,0), (1,-1), (1,0), (1,1), (2,-2), ....  Fields mirror the private data
members `s`, `ellMax`, `data`. -/
structure Modes where
  s : ℤ
  ellMax : ℤ
  data : List ℂ

/-- The size constructor `Modes(const int size=0): s(0), ellMax(0), data(size)`:
note that `ellMax` is set to `0` whatever `size` is. -/
def Modes.ofSize (size : ℕ) : Modes :=
  { s := 0, ellMax := 0, data := List.replicate size 0 }

/-- `Modes::SetSpin(const int ess) { s=ess; return *this; }`. -/
def Modes.SetSpin (m : Modes) (ess : ℤ) : Modes := { m with s := ess }

/-- `Modes::SetEllMax(const int ell) { ellMax=ell; return *this; }`;
the data vector is not resized. -/
def Modes.SetEllMax (m : Modes) (ell : ℤ) : Modes := { m with ellMax := ell }

/-- `Modes::size() const { return data.size(); }`. -/
def Modes.size (m : Modes) : ℕ := m.data.length

/-- Modelled from the spec: the body of
`Modes(const int spin, const std::vector<std::complex<double>>& Data)` is in
`Scri.cpp`, which is not among the given sources.  Per the data model the
coefficient count is `(ellMax+1)^2`, so the degree is recovered from the data
length as `sqrt(length) - 1`. -/
def Modes.ofSpinData (spin : ℤ) (D : List ℂ) : Modes :=
  { s := spin, ellMax := (Nat.sqrt D.length : ℤ) - 1, data := D }

/-- The spec's `SpinWeightedModes` shape invariant: coefficient count equals
`(ellMax+1)^2`. -/
def Modes.invariant (m : Modes) : Prop :=
  (m.data.length : ℤ) = (m.ellMax + 1) ^ 2

/-- Decode the flat mode index `k` into `(ℓ, m)` for the storage order
(0,0), (1,-1), (1,0), (1,1), (2,-2), ...: `ℓ = sqrt k` and `m = k - ℓ^2 - ℓ`. -/
def lmOfIndex (k : ℕ) : ℕ × ℤ :=
  (Nat.sqrt k, (k : ℤ) - (Nat.sqrt k : ℤ) ^ 2 - (Nat.sqrt k : ℤ))

/-- Modelled from the spec: the spin-weighted spherical harmonic
`sYlm(theta, phi)` in the Goldberg closed form (sum over `r` of binomial
coefficients times powers of half-angle trigonometric functions times
`exp(i m phi)`).  The spinsfast basis code is not among the given sources;
this exact-arithmetic basis stands in for it. -/
noncomputable def swsh (s : ℤ) (l : ℕ) (m : ℤ) (theta phi : ℝ) : ℂ :=
  ((-1 : ℂ) ^ m)
    * ((Real.sqrt ((((l : ℤ) + m).toNat.factorial * ((l : ℤ) - m).toNat.factorial * (2 * l + 1) : ℕ)
        / (4 * Real.pi * (((l : ℤ) + s).toNat.factorial * ((l : ℤ) - s).toNat.factorial : ℕ))) : ℝ) : ℂ)
    * ((Real.sin (theta / 2) ^ (2 * l) : ℝ) : ℂ)
    * ∑ r ∈ Finset.range (((l : ℤ) - s).toNat + 1),
        if 0 ≤ (r : ℤ) + s - m ∧ (r : ℤ) + s - m ≤ (l : ℤ) + s then
          ((Nat.choose ((l : ℤ) - s).toNat r : ℝ) : ℂ)
            * ((Nat.choose ((l : ℤ) + s).toNat ((r : ℤ) + s - m).toNat : ℝ) : ℂ)
            * ((-1 : ℂ) ^ ((l : ℤ) - r - s))
            * Complex.exp (Complex.I * m * phi)
            * (((Real.cos (theta / 2) / Real.sin (theta / 2)) : ℂ) ^ (2 * (r : ℤ) + s - m))
        else 0

/-- Colatitude of row `i` of an equi-angular grid with `n_theta` rows,
poles included. -/
noncomputable def gridTheta (n_theta : ℤ) (i : ℕ) : ℝ :=
  Real.pi * i / ((n_theta : ℝ) - 1)

/-- Azimuth of column `j` of an equi-angular grid with `n_phi` columns. -/
noncomputable def gridPhi (n_phi : ℤ) (j : ℕ) : ℝ :=
  2 * Real.pi * j / (n_phi : ℝ)

/-- Value of the truncated mode series of `M` at grid point `(i, j)` of an
`nt * np` equi-angular grid. -/
noncomputable def Modes.sampleAt (M : Modes) (nt np : ℤ) (i j : ℕ) : ℂ :=
  ∑ k ∈ Finset.range M.data.length,
    M.data.getD k 0 * swsh M.s (lmOfIndex k).1 (lmOfIndex k).2 (gridTheta nt i) (gridPhi np j)

/-- Modelled from the spec: `ToGrid` — the body of
`DataGrid(Modes M, const int N_theta=0, const int N_phi=0)` (a spinsfast
wrapper) is in `Scri.cpp`, which is not among the given sources.  It samples
the truncated mode series of `M` on the equi-angular grid, row-major with the
poles included, preserving the spin; a zero dimension argument (the C++
default) is replaced by the Nyquist resolution `2*ellMax+1`. -/
noncomputable def DataGrid.ofModes (M : Modes) (N_theta N_phi : ℤ) : DataGrid :=
  let nt : ℤ := if N_theta = 0 then 2 * M.ellMax + 1 else N_theta
  let np : ℤ := if N_phi = 0 then 2 * M.ellMax + 1 else N_phi
  { s := M.s, n_theta := nt, n_phi := np,
    data := (List.range (nt.toNat * np.toNat)).map
      (fun k => M.sampleAt nt np (k / np.toNat) (k % np.toNat)) }

/-- Modelled from the spec: pointwise grid multiplication `DataGrid::operator*`
(body in `Scri.cpp`, not among the given sources); spins add, samples multiply
pointwise, dimensions are those of the left operand. -/
def DataGrid.mul (a b : DataGrid) : DataGrid :=
  { s := a.s + b.s, n_theta := a.n_theta, n_phi := a.n_phi,
    data := List.zipWith (fun x y => x * y) a.data b.data }

/-- Modelled from the spec: pointwise grid addition `DataGrid::operator+`
(body in `Scri.cpp`, not among the given sources); addition of differing spins
is a shape-mismatch failure (spec sections 3 and 7), samples add pointwise,
dimensions are those of the left operand. -/
def DataGrid.add (a b : DataGrid) : Except GWError DataGrid :=
  if a.s = b.s then
    Except.ok
      { s := a.s, n_theta := a.n_theta, n_phi := a.n_phi,
        data := List.zipWith (fun x y => x + y) a.data b.data }
  else Except.error GWError.VectorSizeMismatch

/-- Modelled from the spec: pointwise grid subtraction `DataGrid::operator-`
(body in `Scri.cpp`, not among the given sources); subtraction of differing
spins is a shape-mismatch failure, samples subtract pointwise, dimensions are
those of the left operand. -/
def DataGrid.sub (a b : DataGrid) : Except GWError DataGrid :=
  if a.s = b.s then
    Except.ok
      { s := a.s, n_theta := a.n_theta, n_phi := a.n_phi,
        data := List.zipWith (fun x y => x - y) a.data b.data }
  else Except.error GWError.VectorSizeMismatch

/-- Modelled from the spec: pointwise grid division `DataGrid::operator/`
(body in `Scri.cpp`, not among the given sources); spins subtract, samples
divide pointwise, and division by a grid containing an exact zero sample fails
with the numeric-domain error. -/
noncomputable def DataGrid.div (a b : DataGrid) : Except GWError DataGrid :=
  if (0 : ℂ) ∈ b.data then Except.error GWError.ValueError
  else
    Except.ok
      { s := a.s - b.s, n_theta := a.n_theta, n_phi := a.n_phi,
        data := List.zipWith (fun x y => x / y) a.data b.data }

/-- Modelled from the spec: `DataGrid::pow(const int p)` (body in `Scri.cpp`,
not among the given sources); the pointwise integer `p`-th power of every
sample, with the spin multiplied by `p` per the spin rule for products. -/
noncomputable def DataGrid.pow (d : DataGrid) (p : ℤ) : DataGrid :=
  { d with s := d.s * p, data := d.data.map (fun z => z ^ p) }

/-- Projection of the grid `D` onto the conjugated basis function `(l, m)` by
the discretized quadrature of the sphere integral. -/
noncomputable def DataGrid.coeffAt (D : DataGrid) (l : ℕ) (m : ℤ) : ℂ :=
  ∑ i ∈ Finset.range D.n_theta.toNat, ∑ j ∈ Finset.range D.n_phi.toNat,
    ((Real.sin (gridTheta D.n_theta i) * (Real.pi / ((D.n_theta : ℝ) - 1))
        * (2 * Real.pi / (D.n_phi : ℝ))) : ℂ)
      * (starRingEnd ℂ) (swsh D.s l m (gridTheta D.n_theta i) (gridPhi D.n_phi j))
      * D.data.getD (i * D.n_phi.toNat + j) 0

/-- Modelled from the spec: `ToModes` — the body of
`Modes(DataGrid D, const int L=-1)` (a spinsfast wrapper) is in `Scri.cpp`,
which is not among the given sources.  It projects the grid onto the modes up
to degree `L`, preserving the spin; a negative `L` (the C++ default `-1`)
infers the degree from the grid bandwidth, `(n_theta - 1) / 2`. -/
noncomputable def Modes.ofDataGrid (D : DataGrid) (L : ℤ) : Modes :=
  let ell : ℤ := if L < 0 then (D.n_theta - 1) / 2 else L
  { s := D.s, ellMax := ell,
    data := (List.range ((ell.toNat + 1) ^ 2)).map
      (fun k => D.coeffAt (lmOfIndex k).1 (lmOfIndex k).2) }

/-- `Modes::pow` from `Scri.hpp` (inline in the header):
`Modes pow(const int p) const { return Modes(DataGrid(*this, 2*EllMax()*p+1, 2*EllMax()*p+1).pow(p)); }`;
the trailing `Modes(...)` conversion uses its default degree argument `-1`. -/
noncomputable def Modes.pow (m : Modes) (p : ℤ) : Modes :=
  Modes.ofDataGrid ((DataGrid.ofModes m (2 * m.ellMax * p + 1) (2 * m.ellMax * p + 1)).pow p) (-1)

/-- Coefficientwise combination of two coefficient lists after zero-padding
the shorter one (the spec's rule for mode addition and subtraction). -/
def zipWithPad (f : ℂ → ℂ → ℂ) : List ℂ → List ℂ → List ℂ
  | [], [] => []
  | [], y :: ys => f 0 y :: zipWithPad f [] ys
  | x :: xs, [] => f x 0 :: zipWithPad f xs []
  | x :: xs, y :: ys => f x y :: zipWithPad f xs ys

/-- Modelled from the spec: mode addition `Modes::operator+` (body in
`Scri.cpp`, not among the given sources); it requires equal spin — addition of
differing spins is a shape-mismatch failure (spec sections 3, 4.1 and 7) —
and is coefficientwise after zero-padding to the larger degree. -/
def Modes.add (a b : Modes) : Except GWError Modes :=
  if a.s = b.s then
    Except.ok
      { s := a.s, ellMax := max a.ellMax b.ellMax,
        data := zipWithPad (fun x y => x + y) a.data b.data }
  else Except.error GWError.VectorSizeMismatch

/-- Modelled from the spec: mode subtraction `Modes::operator-` (body in
`Scri.cpp`, not among the given sources); like addition it requires equal spin
and is coefficientwise after zero-padding to the larger degree. -/
def Modes.sub (a b : Modes) : Except GWError Modes :=
  if a.s = b.s then
    Except.ok
      { s := a.s, ellMax := max a.ellMax b.ellMax,
        data := zipWithPad (fun x y => x - y) a.data b.data }
  else Except.error GWError.VectorSizeMismatch

/-- Modelled from the spec: mode multiplication `Modes::operator*` (body in
`Scri.cpp`, not among the given sources); defined by round-tripping through
the grid representation at a resolution sufficient for the combined bandwidth,
`2*(ellMax_a + ellMax_b) + 1`. -/
noncomputable def Modes.mul (a b : Modes) : Modes :=
  Modes.ofDataGrid
    ((DataGrid.ofModes a (2 * (a.ellMax + b.ellMax) + 1) (2 * (a.ellMax + b.ellMax) + 1)).mul
      (DataGrid.ofModes b (2 * (a.ellMax + b.ellMax) + 1) (2 * (a.ellMax + b.ellMax) + 1)))
    (-1)

/-- Modelled from the spec: mode division `Modes::operator/` (body in
`Scri.cpp`, not among the given sources); defined by round-tripping through
the grid representation, where division by a grid containing an exact zero
sample fails with the numeric-domain error. -/
noncomputable def Modes.div (a b : Modes) : Except GWError Modes :=
  match (DataGrid.ofModes a (2 * (a.ellMax + b.ellMax) + 1)
      (2 * (a.ellMax + b.ellMax) + 1)).div
      (DataGrid.ofModes b (2 * (a.ellMax + b.ellMax) + 1)
        (2 * (a.ellMax + b.ellMax) + 1)) with
  | Except.error e => Except.error e
  | Except.ok g => Except.ok (Modes.ofDataGrid g (-1))

/-- The `ℓ ≤ 1` part of a mode field: the first four coefficients
((0,0), (1,-1), (1,0), (1,1)) kept, all higher coefficients zeroed. -/
def Modes.lowEllPart (m : Modes) : Modes :=
  { m with
    data := (List.range m.data.length).map
      (fun k => if k < 4 then m.data.getD k 0 else 0) }

/-- `SliceOfScri<D>` from `Scri.hpp`: the seven complex fields describing one
slice of null infinity. -/
structure SliceOfScri (D : Type) where
  psi0 : D
  psi1 : D
  psi2 : D
  psi3 : D
  psi4 : D
  sigma : D
  sigmadot : D

/-- `SliceOfScri<D>::operator[](const unsigned int i)` from `Scri.hpp`: returns
`psi0..psi4`, `sigma`, `sigmadot` for `i = 0..6` and throws
`GWFrames_IndexOutOfBounds` for any larger index. -/
def SliceOfScri.get {D : Type} (S : SliceOfScri D) (i : ℕ) : Except GWError D :=
  if i = 0 then .ok S.psi0
  else if i = 1 then .ok S.psi1
  else if i = 2 then .ok S.psi2
  else if i = 3 then .ok S.psi3
  else if i = 4 then .ok S.psi4
  else if i = 5 then .ok S.sigma
  else if i = 6 then .ok S.sigmadot
  else .error GWError.IndexOutOfBounds

/-- `SuperMomenta` from `Scri.hpp`: a time series `t` together with the
supermomentum mode field `Psi` at each time. -/
structure SuperMomenta where
  t : List ℝ
  Psi : List Modes

/-- The constructor
`SuperMomenta(const std::vector<double>& T, const std::vector<Modes>& psi) : t(T), Psi(psi) { }`
(inline in `Scri.hpp`): it stores both vectors as given, with no comparison of
their sizes and no error path. -/
def SuperMomenta.ofTPsi (T : List ℝ) (psi : List Modes) : SuperMomenta :=
  { t := T, Psi := psi }

/-- `SuperMomenta::NTimes() const { return t.size(); }` (inline in `Scri.hpp`):
the number of times is read from `t` alone. -/
def SuperMomenta.NTimes (S : SuperMomenta) : ℕ := S.t.length

/-- Modelled from the spec: `SuperMomenta::BMSTransform` (body in `Scri.cpp`,
not among the given sources) applies the conformal-weight-3 rescaling by
`1/K` to the supermomentum at the reference (first) time and returns the
result as modes; the angle-dependent time shift by `delta` requires the
external time-interpolation collaborator and is not reproduced here. -/
noncomputable def SuperMomenta.BMSTransform (S : SuperMomenta) (OneOverK delta : Modes) : Modes :=
  Modes.ofDataGrid
    (DataGrid.mul (DataGrid.ofModes (S.Psi.headD (Modes.ofSize 0)) 0 0)
      ((DataGrid.ofModes OneOverK 0 0).pow 3))
    (-1)

/-- Modelled from the spec: the update rule of `SuperMomenta::MoreschiIteration`
(body in `Scri.cpp`, not among the given sources) — compute the transformed
supermomentum and correct each candidate of the pair `(OneOverK, delta)`
coefficientwise from its `ℓ = 0, 1` moments. -/
noncomputable def SuperMomenta.moreschiUpdate (S : SuperMomenta) (OneOverK delta : Modes) :
    Modes × Modes :=
  ({ OneOverK with
      data := zipWithPad (fun x y => x + y) OneOverK.data
          (S.BMSTransform OneOverK delta).lowEllPart.data },
   { delta with
      data := zipWithPad (fun x y => x + y) delta.data
          (S.BMSTransform OneOverK delta).lowEllPart.data })

/-- `SuperMomenta::MoreschiIteration(Modes& OneOverK, Modes& delta) const` —
the declaration in `Scri.hpp` is a `const` member function returning `void`,
so a call can change only the two by-reference arguments.  The call is
embedded as a transformer of the full call state: it returns the (necessarily
unchanged) receiver together with the updated argument pair; the update rule
itself is modelled from the spec in `SuperMomenta.moreschiUpdate`. -/
noncomputable def SuperMomenta.MoreschiIteration (S : SuperMomenta) (OneOverK delta : Modes) :
    SuperMomenta × Modes × Modes :=
  (S, S.moreschiUpdate OneOverK delta)

/-- Modelled from the spec: the external waveform time-series collaborator
(spec section 6); only the members the embedded constructors inspect are
carried (the time array and the per-mode complex data). -/
structure Waveform where
  t : List ℝ
  data : List (List ℂ)

/-- The state of a `WaveformAtAPointFT`.  The class header is not among the
given sources; the fields are exactly the members written by the definitions
in `WaveformAtAPointFT.cpp`: `mDt`, `mVartheta`, `mVarphi`, `mNormalized`,
`mFreqs`, `mRealF`, `mImagF`. -/
structure WaveformAtAPointFT where
  mDt : ℝ
  mVartheta : ℝ
  mVarphi : ℝ
  mNormalized : Bool
  mFreqs : List ℝ
  mRealF : List ℝ
  mImagF : List ℝ

/-- `NFreq()`: the number of stored frequencies (reconstructed from its uses in
`WaveformAtAPointFT.cpp`, where `mRealF`/`mImagF` are resized to
`mFreqs.size()` and every loop over bins runs to `NFreq()`). -/
def WaveformAtAPointFT.NFreq (A : WaveformAtAPointFT) : ℕ := A.mFreqs.length

/-- `F(i)`: the `i`-th stored frequency. -/
def WaveformAtAPointFT.F (A : WaveformAtAPointFT) (i : ℕ) : ℝ := A.mFreqs.getD i 0

/-- `Re(i)`: the `i`-th stored real part. -/
def WaveformAtAPointFT.Re (A : WaveformAtAPointFT) (i : ℕ) : ℝ := A.mRealF.getD i 0

/-- `Im(i)`: the `i`-th stored imaginary part. -/
def WaveformAtAPointFT.Im (A : WaveformAtAPointFT) (i : ℕ) : ℝ := A.mImagF.getD i 0

/-- `IsNormalized()`: the `mNormalized` flag. -/
def WaveformAtAPointFT.IsNormalized (A : WaveformAtAPointFT) : Bool := A.mNormalized

/-- The deprecated constructor of `WaveformAtAPointFT` (the overload taking
`WindowNCycles` and separate `Vartheta`/`Varphi`): after printing a
deprecation notice it unconditionally throws `GWFrames_NotYetImplemented`,
so no object is ever produced. -/
def WaveformAtAPointFT.ofOldForm (W : Waveform) (Dt Vartheta Varphi TotalMass : ℝ)
    (WindowNCycles : ℕ) (DetectorResponseAmp DetectorResponsePhase : ℝ)
    (ExtraZeroPadPowers : ℕ) : Except GWError WaveformAtAPointFT :=
  Except.error GWError.NotYetImplemented

/-- `WaveformAtAPointFT::SNR(const std::vector<double>& InversePSD)`: throws
`GWFrames_VectorSizeMismatch` when `NFreq() != InversePSD.size()`, otherwise
accumulates `(Re(i)^2 + Im(i)^2) * InversePSD[i]` over the bins, scales by
`4*(F(1)-F(0))`, and returns the square root. -/
noncomputable def WaveformAtAPointFT.SNR (A : WaveformAtAPointFT) (InversePSD : List ℝ) :
    Except GWError ℝ :=
  if A.NFreq ≠ InversePSD.length then Except.error GWError.VectorSizeMismatch
  else Except.ok (Real.sqrt (4 * (A.F 1 - A.F 0)
    * (List.range A.NFreq).foldl
        (fun acc i => acc + (A.Re i * A.Re i + A.Im i * A.Im i) * InversePSD.getD i 0) 0))

/-- `WaveformAtAPointFT::Normalize(const std::vector<double>& InversePSD)`:
if `mNormalized` is already set the object is returned at once; otherwise
`SNR(InversePSD)` is computed (its size check may throw), every stored
frequency-domain value is divided by it, and the flag is set. -/
noncomputable def WaveformAtAPointFT.Normalize (A : WaveformAtAPointFT) (InversePSD : List ℝ) :
    Except GWError WaveformAtAPointFT :=
  if A.mNormalized then Except.ok A
  else
    match A.SNR InversePSD with
    | Except.error e => Except.error e
    | Except.ok snr =>
        Except.ok { A with
          mRealF := A.mRealF.map (fun x => x / snr),
          mImagF := A.mImagF.map (fun x => x / snr),
          mNormalized := true }

/-- `WaveformAtAPointFT::ZeroAbove(const double Frequency)`: for every bin
`f < NFreq()` with `fabs(F(f)) > Frequency`, both `mRealF[f]` and `mImagF[f]`
are set to zero; nothing else changes. -/
noncomputable def WaveformAtAPointFT.ZeroAbove (A : WaveformAtAPointFT) (Frequency : ℝ) :
    WaveformAtAPointFT :=
  { A with
    mRealF := (List.range A.mRealF.length).map
      (fun f => if f < A.NFreq ∧ |A.F f| > Frequency then 0 else A.mRealF.getD f 0),
    mImagF := (List.range A.mImagF.length).map
      (fun f => if f < A.NFreq ∧ |A.F f| > Frequency then 0 else A.mImagF.getD f 0) }


/-- Claim C2: for every `Modes` value `m` and every integer `p`, `m.pow p` is
computed by round-tripping through the grid representation: it builds the grid
from `m` at resolution `n_theta = n_phi = 2*ellMax*p + 1` (which meets the
sampling bound `N ≥ 2*(ellMax*p) + 1`), takes the pointwise `p`-th power of
the samples there, and converts the result back to modes (with the default
degree argument `-1`). -/
theorem Modes.pow_is_grid_roundtrip (m : Modes) (p : ℤ) :
    m.pow p
      = Modes.ofDataGrid
          ((DataGrid.ofModes m (2 * m.ellMax * p + 1) (2 * m.ellMax * p + 1)).pow p) (-1)
    ∧ (DataGrid.ofModes m (2 * m.ellMax * p + 1) (2 * m.ellMax * p + 1)).n_theta
        = 2 * m.ellMax * p + 1
    ∧ (DataGrid.ofModes m (2 * m.ellMax * p + 1) (2 * m.ellMax * p + 1)).n_phi
        = 2 * m.ellMax * p + 1
    ∧ ((DataGrid.ofModes m (2 * m.ellMax * p + 1) (2 * m.ellMax * p + 1)).pow p).data
        = (DataGrid.ofModes m (2 * m.ellMax * p + 1) (2 * m.ellMax * p + 1)).data.map
            (fun z => z ^ p)
    ∧ 2 * m.ellMax * p + 1 ≥ 2 * (m.ellMax * p) + 1 := by
  have hne : 2 * m.ellMax * p + 1 ≠ 0 := by
    have h2 : 2 * m.ellMax * p = 2 * (m.ellMax * p) := by ring
    rw [h2]
    generalize m.ellMax * p = q
    omega
  refine ⟨rfl, ?_, ?_, rfl, le_of_eq (by ring)⟩
  · show (if 2 * m.ellMax * p + 1 = 0 then 2 * m.ellMax + 1 else 2 * m.ellMax * p + 1)
      = 2 * m.ellMax * p + 1
    exact if_neg hne
  · show (if 2 * m.ellMax * p + 1 = 0 then 2 * m.ellMax + 1 else 2 * m.ellMax * p + 1)
      = 2 * m.ellMax * p + 1
    exact if_neg hne

/-- Claim C3: `SuperMomenta::MoreschiIteration` is a `const` member returning
`void`: a call leaves the receiver (its time array and its supermomentum field
series) unchanged, and its whole result is the new value of the pair of
by-reference arguments. -/
theorem SuperMomenta.moreschiIteration_receiver_unchanged
    (S : SuperMomenta) (OneOverK delta : Modes) :
    (S.MoreschiIteration OneOverK delta).1 = S
    ∧ (S.MoreschiIteration OneOverK delta).1.t = S.t
    ∧ (S.MoreschiIteration OneOverK delta).1.Psi = S.Psi
    ∧ (S.MoreschiIteration OneOverK delta).2 = S.moreschiUpdate OneOverK delta :=
  ⟨rfl, rfl, rfl, rfl⟩

/-- Claim C4: `SliceOfScri::operator[]` returns `psi0, psi1, psi2, psi3, psi4,
sigma, sigmadot` for indices 0..6 respectively, and throws
`GWFrames_IndexOutOfBounds` for every index `i ≥ 7`. -/
theorem SliceOfScri.get_fields_and_bounds {D : Type} (S : SliceOfScri D) :
    S.get 0 = Except.ok S.psi0
    ∧ S.get 1 = Except.ok S.psi1
    ∧ S.get 2 = Except.ok S.psi2
    ∧ S.get 3 = Except.ok S.psi3
    ∧ S.get 4 = Except.ok S.psi4
    ∧ S.get 5 = Except.ok S.sigma
    ∧ S.get 6 = Except.ok S.sigmadot
    ∧ ∀ i : ℕ, 7 ≤ i → S.get i = Except.error GWError.IndexOutOfBounds := by
  refine ⟨rfl, rfl, rfl, rfl, rfl, rfl, rfl, ?_⟩
  intro i hi
  unfold SliceOfScri.get
  rw [if_neg (by omega), if_neg (by omega), if_neg (by omega), if_neg (by omega),
    if_neg (by omega), if_neg (by omega), if_neg (by omega)]

/-- Witness for claim C4 at a concrete slice: index 7 is rejected and index 0
returns the first field. -/
theorem SliceOfScri.get_fields_and_bounds_witness :
    SliceOfScri.get (⟨0, 1, 2, 3, 4, 5, 6⟩ : SliceOfScri ℕ) 7
        = Except.error GWError.IndexOutOfBounds
    ∧ SliceOfScri.get (⟨0, 1, 2, 3, 4, 5, 6⟩ : SliceOfScri ℕ) 0 = Except.ok 0 :=
  ⟨(SliceOfScri.get_fields_and_bounds (⟨0, 1, 2, 3, 4, 5, 6⟩ : SliceOfScri ℕ)).2.2.2.2.2.2.2
      7 (by decide),
   (SliceOfScri.get_fields_and_bounds (⟨0, 1, 2, 3, 4, 5, 6⟩ : SliceOfScri ℕ)).1⟩

/-- Claim C9: the `SuperMomenta(T, psi)` constructor performs no shape check —
it is total for every pair of vectors, stores both exactly as given (so a
length mismatch is accepted silently), and `NTimes()` afterwards reports the
length of `T` alone, regardless of how many mode fields were stored. -/
theorem SuperMomenta.ofTPsi_unchecked (T : List ℝ) (psi : List Modes) :
    (SuperMomenta.ofTPsi T psi).NTimes = T.length
    ∧ (SuperMomenta.ofTPsi T psi).t = T
    ∧ (SuperMomenta.ofTPsi T psi).Psi = psi :=
  ⟨rfl, rfl, rfl⟩

/-- The length of a zero-padded coefficientwise combination is the larger of
the two lengths. -/
theorem zipWithPad_length (f : ℂ → ℂ → ℂ) (xs ys : List ℂ) :
    (zipWithPad f xs ys).length = max xs.length ys.length := by
  induction xs generalizing ys with
  | nil =>
    induction ys with
    | nil => simp [zipWithPad]
    | cons y ys ih => simp [zipWithPad, ih]
  | cons x xs ih =>
    cases ys with
    | nil => simp [zipWithPad, ih]
    | cons y ys => simp [zipWithPad, ih]; omega

/-- Claim C5 counterexample: the size constructor at the non-square size 2
stores 2 samples but dimensions 1 by 1, breaking the shape invariant. -/
theorem sqrt_two_val : Nat.sqrt 2 = 1 := ((Nat.eq_sqrt).mpr (by omega)).symm

theorem sqrt_four_val : Nat.sqrt 4 = 2 := ((Nat.eq_sqrt).mpr (by omega)).symm

theorem DataGrid.ofSize_two_breaks_invariant :
    ¬ DataGrid.invariant (DataGrid.ofSize 2) := by
  simp only [DataGrid.invariant, DataGrid.ofSize, List.length_replicate, sqrt_two_val]
  decide

/-- Claim C5 (amended): the shape invariant `sample count = n_theta * n_phi`
holds after construction from a perfect-square size and is preserved by
`SetSpin`; `SetNTheta`/`SetNPhi` do not resize the data, so they preserve it
exactly when the new dimensions stay consistent with the stored sample count;
the dimension-and-data constructor establishes it when handed consistent
arguments; and the (spec-modelled) arithmetic operators respect it: the
pointwise product and integer power preserve it, while addition and
subtraction (which fail on mismatched spins) and division (which fails on a
zero sample) produce an invariant-satisfying grid whenever they succeed on
operands of equal sample count; mode-to-grid conversion also establishes
it. -/
theorem DataGrid.grid_invariant_amended :
    (∀ k : ℕ, DataGrid.invariant (DataGrid.ofSize (k * k)))
    ∧ (∀ (d : DataGrid) (ess : ℤ), d.invariant → (d.SetSpin ess).invariant)
    ∧ (∀ (d : DataGrid) (n : ℤ), n * d.n_phi = (d.data.length : ℤ) → (d.SetNTheta n).invariant)
    ∧ (∀ (d : DataGrid) (n : ℤ), d.n_theta * n = (d.data.length : ℤ) → (d.SetNPhi n).invariant)
    ∧ (∀ (Spin N_theta N_phi : ℤ) (D : List ℂ), (D.length : ℤ) = N_theta * N_phi →
        (DataGrid.ofSpinShapeData Spin N_theta N_phi D).invariant)
    ∧ (∀ a b : DataGrid, a.invariant → b.data.length = a.data.length →
        (DataGrid.mul a b).invariant)
    ∧ (∀ (d : DataGrid) (p : ℤ), d.invariant → (d.pow p).invariant)
    ∧ (∀ (M : Modes) (nt np : ℤ), 0 < nt → 0 < np → (DataGrid.ofModes M nt np).invariant)
    ∧ (∀ a b c : DataGrid, a.invariant → b.data.length = a.data.length →
        a.add b = Except.ok c → c.invariant)
    ∧ (∀ a b c : DataGrid, a.invariant → b.data.length = a.data.length →
        a.sub b = Except.ok c → c.invariant)
    ∧ (∀ a b c : DataGrid, a.invariant → b.data.length = a.data.length →
        a.div b = Except.ok c → c.invariant) := by
  refine ⟨?_, ?_, ?_, ?_, ?_, ?_, ?_, ?_, ?_, ?_, ?_⟩
  · intro k
    unfold DataGrid.invariant DataGrid.ofSize
    simp [Nat.sqrt_eq]
  · intro d ess h
    exact h
  · intro d n h
    unfold DataGrid.invariant DataGrid.SetNTheta
    exact h.symm
  · intro d n h
    unfold DataGrid.invariant DataGrid.SetNPhi
    exact h.symm
  · intro Spin N_theta N_phi D h
    exact h
  · intro a b ha hlen
    unfold DataGrid.invariant DataGrid.mul
    unfold DataGrid.invariant at ha
    simp [List.length_zipWith, hlen, ha]
  · intro d p h
    unfold DataGrid.invariant DataGrid.pow
    unfold DataGrid.invariant at h
    simpa using h
  · intro M nt np hnt hnp
    have hnt0 : nt ≠ 0 := by omega
    have hnp0 : np ≠ 0 := by omega
    unfold DataGrid.invariant DataGrid.ofModes
    simp only [if_neg hnt0, if_neg hnp0, List.length_map, List.length_range]
    push_cast [Int.toNat_of_nonneg hnt.le, Int.toNat_of_nonneg hnp.le]
    ring
  · intro a b c ha hlen h
    unfold DataGrid.add at h
    split at h
    · injection h with h
      subst h
      unfold DataGrid.invariant at ha ⊢
      simp [List.length_zipWith, hlen, ha]
    · exact Except.noConfusion h
  · intro a b c ha hlen h
    unfold DataGrid.sub at h
    split at h
    · injection h with h
      subst h
      unfold DataGrid.invariant at ha ⊢
      simp [List.length_zipWith, hlen, ha]
    · exact Except.noConfusion h
  · intro a b c ha hlen h
    unfold DataGrid.div at h
    split at h
    · exact Except.noConfusion h
    · injection h with h
      subst h
      unfold DataGrid.invariant at ha ⊢
      simp [List.length_zipWith, hlen, ha]

/-- Witness for claim C5 (amended) at concrete inputs. -/
theorem DataGrid.grid_invariant_amended_witness :
    DataGrid.invariant (DataGrid.ofSize 4)
    ∧ DataGrid.invariant ((DataGrid.ofSize 4).SetSpin 5)
    ∧ DataGrid.invariant ((DataGrid.ofSize 4).SetNTheta 2)
    ∧ DataGrid.invariant ((DataGrid.ofSize 4).SetNPhi 2)
    ∧ DataGrid.invariant (DataGrid.ofSpinShapeData 1 2 3 (List.replicate 6 0))
    ∧ DataGrid.invariant (DataGrid.mul (DataGrid.ofSize 4) (DataGrid.ofSize 4))
    ∧ DataGrid.invariant ((DataGrid.ofSize 4).pow 2)
    ∧ DataGrid.invariant (DataGrid.ofModes (Modes.ofSize 1) 3 3)
    ∧ DataGrid.invariant
        { s := (0 : ℤ), n_theta := (Nat.sqrt 4 : ℤ), n_phi := (Nat.sqrt 4 : ℤ),
          data := List.zipWith (fun x y => x + y) (List.replicate 4 (0 : ℂ))
            (List.replicate 4 (0 : ℂ)) }
    ∧ DataGrid.invariant
        { s := (0 : ℤ), n_theta := (Nat.sqrt 4 : ℤ), n_phi := (Nat.sqrt 4 : ℤ),
          data := List.zipWith (fun x y => x - y) (List.replicate 4 (0 : ℂ))
            (List.replicate 4 (0 : ℂ)) }
    ∧ DataGrid.invariant
        { s := (0 : ℤ), n_theta := 2, n_phi := 2,
          data := List.zipWith (fun x y => x / y) (List.replicate 4 (1 : ℂ))
            (List.replicate 4 (1 : ℂ)) } :=
  ⟨DataGrid.grid_invariant_amended.1 2,
   DataGrid.grid_invariant_amended.2.1 (DataGrid.ofSize 4) 5 (DataGrid.grid_invariant_amended.1 2),
   DataGrid.grid_invariant_amended.2.2.1 (DataGrid.ofSize 4) 2
     (by simp only [DataGrid.ofSize, List.length_replicate, sqrt_four_val]; decide),
   DataGrid.grid_invariant_amended.2.2.2.1 (DataGrid.ofSize 4) 2
     (by simp only [DataGrid.ofSize, List.length_replicate, sqrt_four_val]; decide),
   DataGrid.grid_invariant_amended.2.2.2.2.1 1 2 3 (List.replicate 6 0) (by decide),
   DataGrid.grid_invariant_amended.2.2.2.2.2.1 (DataGrid.ofSize 4) (DataGrid.ofSize 4)
     (DataGrid.grid_invariant_amended.1 2) (by decide),
   DataGrid.grid_invariant_amended.2.2.2.2.2.2.1 (DataGrid.ofSize 4) 2
     (DataGrid.grid_invariant_amended.1 2),
   DataGrid.grid_invariant_amended.2.2.2.2.2.2.2.1 (Modes.ofSize 1) 3 3 (by decide) (by decide),
   DataGrid.grid_invariant_amended.2.2.2.2.2.2.2.2.1 (DataGrid.ofSize 4) (DataGrid.ofSize 4) _
     (DataGrid.grid_invariant_amended.1 2) rfl rfl,
   DataGrid.grid_invariant_amended.2.2.2.2.2.2.2.2.2.1 (DataGrid.ofSize 4) (DataGrid.ofSize 4) _
     (DataGrid.grid_invariant_amended.1 2) rfl rfl,
   DataGrid.grid_invariant_amended.2.2.2.2.2.2.2.2.2.2
     (DataGrid.ofSpinShapeData 0 2 2 (List.replicate 4 1))
     (DataGrid.ofSpinShapeData 0 2 2 (List.replicate 4 1)) _
     (by simp only [DataGrid.invariant, DataGrid.ofSpinShapeData, List.length_replicate]; decide)
     rfl
     (by simp [DataGrid.div, DataGrid.ofSpinShapeData])⟩

/-- Claim C6 counterexample: the default-constructed `Modes` (size 0) has 0
coefficients but `ellMax = 0`, so its count differs from `(ellMax+1)^2 = 1`. -/
theorem Modes.ofSize_zero_breaks_invariant :
    ¬ Modes.invariant (Modes.ofSize 0) := by
  show ¬ (((List.replicate 0 (0 : ℂ)).length : ℤ) = ((0 : ℤ) + 1) ^ 2)
  decide

/-- Mode extraction at the default degree `-1` satisfies the shape invariant
whenever the inferred degree `(n_theta - 1)/2` is non-negative. -/
theorem Modes.ofDataGrid_default_invariant (D : DataGrid) (h : 0 ≤ (D.n_theta - 1) / 2) :
    (Modes.ofDataGrid D (-1)).invariant := by
  unfold Modes.invariant Modes.ofDataGrid
  simp only [if_pos (by omega : (-1 : ℤ) < 0), List.length_map, List.length_range]
  push_cast [Int.toNat_of_nonneg h]
  ring

/-- The larger of two counts that are each a square of a successor is the
square of the successor of the larger degree. -/
theorem max_sq_cast (la lb : ℤ) (x y : ℕ) (ha : 0 ≤ la) (hb : 0 ≤ lb)
    (hx : (x : ℤ) = (la + 1) ^ 2) (hy : (y : ℤ) = (lb + 1) ^ 2) :
    ((max x y : ℕ) : ℤ) = (max la lb + 1) ^ 2 := by
  rw [Nat.cast_max, hx, hy]
  rcases le_total la lb with h | h
  · rw [max_eq_right (pow_le_pow_left₀ (by omega) (by omega : la + 1 ≤ lb + 1) 2),
      max_eq_right h]
  · rw [max_eq_left (pow_le_pow_left₀ (by omega) (by omega : lb + 1 ≤ la + 1) 2),
      max_eq_left h]

/-- Claim C6 (amended): the shape invariant `coefficient count = (ellMax+1)^2`
holds after size construction only for size 1 (or for size `(L+1)^2` followed
by `SetEllMax L`), is preserved by `SetSpin`, is preserved by `SetEllMax`
exactly when the new degree stays consistent with the stored count, and is
established by the spin-and-data constructor for perfect-square data; the
(spec-modelled) mode algebra respects it: addition and subtraction (which
require equal spin and fail otherwise) preserve it whenever they succeed,
multiplication and the grid-round-trip integer power produce
invariant-satisfying modes, division yields one whenever it succeeds (it
fails with the numeric-domain error on a zero grid sample), and grid-to-mode
conversion at a requested degree establishes it. -/
theorem Modes.modes_invariant_amended :
    Modes.invariant (Modes.ofSize 1)
    ∧ (∀ L : ℕ, Modes.invariant ((Modes.ofSize ((L + 1) ^ 2)).SetEllMax L))
    ∧ (∀ (m : Modes) (ess : ℤ), m.invariant → (m.SetSpin ess).invariant)
    ∧ (∀ (m : Modes) (L : ℤ), (m.data.length : ℤ) = (L + 1) ^ 2 → (m.SetEllMax L).invariant)
    ∧ (∀ (spin : ℤ) (D : List ℂ) (n : ℕ), D.length = (n + 1) ^ 2 →
        (Modes.ofSpinData spin D).invariant)
    ∧ (∀ a b c : Modes, 0 ≤ a.ellMax → 0 ≤ b.ellMax → a.invariant → b.invariant →
        a.add b = Except.ok c → c.invariant)
    ∧ (∀ a b c : Modes, 0 ≤ a.ellMax → 0 ≤ b.ellMax → a.invariant → b.invariant →
        a.sub b = Except.ok c → c.invariant)
    ∧ (∀ a b : Modes, 0 ≤ a.ellMax → 0 ≤ b.ellMax → (a.mul b).invariant)
    ∧ (∀ a b : Modes, 0 ≤ a.ellMax → 0 ≤ b.ellMax →
        (∃ e, a.div b = Except.error e)
        ∨ (∃ c, a.div b = Except.ok c ∧ c.invariant))
    ∧ (∀ (D : DataGrid) (L : ℤ), 0 ≤ L → (Modes.ofDataGrid D L).invariant)
    ∧ (∀ (m : Modes) (p : ℤ), 0 ≤ m.ellMax * p → (m.pow p).invariant) := by
  refine ⟨?_, ?_, ?_, ?_, ?_, ?_, ?_, ?_, ?_, ?_, ?_⟩
  · show ((List.replicate 1 (0 : ℂ)).length : ℤ) = ((0 : ℤ) + 1) ^ 2
    decide
  · intro L
    unfold Modes.invariant Modes.SetEllMax Modes.ofSize
    simp
  · intro m ess h
    exact h
  · intro m L h
    exact h
  · intro spin D n h
    unfold Modes.invariant Modes.ofSpinData
    rw [h, Nat.sqrt_eq' (n + 1)]
    push_cast
    ring
  · intro a b c ha hb hA hB h
    unfold Modes.add at h
    split at h
    · injection h with h
      subst h
      unfold Modes.invariant at hA hB ⊢
      rw [zipWithPad_length]
      exact max_sq_cast a.ellMax b.ellMax a.data.length b.data.length ha hb hA hB
    · exact Except.noConfusion h
  · intro a b c ha hb hA hB h
    unfold Modes.sub at h
    split at h
    · injection h with h
      subst h
      unfold Modes.invariant at hA hB ⊢
      rw [zipWithPad_length]
      exact max_sq_cast a.ellMax b.ellMax a.data.length b.data.length ha hb hA hB
    · exact Except.noConfusion h
  · intro a b ha hb
    have hne : 2 * (a.ellMax + b.ellMax) + 1 ≠ 0 := by omega
    unfold Modes.mul
    apply Modes.ofDataGrid_default_invariant
    have hnth : ((DataGrid.ofModes a (2 * (a.ellMax + b.ellMax) + 1)
          (2 * (a.ellMax + b.ellMax) + 1)).mul
        (DataGrid.ofModes b (2 * (a.ellMax + b.ellMax) + 1)
          (2 * (a.ellMax + b.ellMax) + 1))).n_theta
        = 2 * (a.ellMax + b.ellMax) + 1 := by
      unfold DataGrid.mul DataGrid.ofModes
      simp [if_neg hne]
    rw [hnth]
    omega
  · intro a b ha hb
    have hne : 2 * (a.ellMax + b.ellMax) + 1 ≠ 0 := by omega
    cases hcase : (DataGrid.ofModes a (2 * (a.ellMax + b.ellMax) + 1)
        (2 * (a.ellMax + b.ellMax) + 1)).div
        (DataGrid.ofModes b (2 * (a.ellMax + b.ellMax) + 1)
          (2 * (a.ellMax + b.ellMax) + 1)) with
    | error e =>
      left
      exact ⟨e, by unfold Modes.div; rw [hcase]⟩
    | ok g =>
      right
      refine ⟨Modes.ofDataGrid g (-1), by unfold Modes.div; rw [hcase], ?_⟩
      apply Modes.ofDataGrid_default_invariant
      have hg : g.n_theta = (DataGrid.ofModes a (2 * (a.ellMax + b.ellMax) + 1)
          (2 * (a.ellMax + b.ellMax) + 1)).n_theta := by
        unfold DataGrid.div at hcase
        split at hcase
        · exact Except.noConfusion hcase
        · injection hcase with hcase
          rw [← hcase]
      have hnth : (DataGrid.ofModes a (2 * (a.ellMax + b.ellMax) + 1)
          (2 * (a.ellMax + b.ellMax) + 1)).n_theta
          = 2 * (a.ellMax + b.ellMax) + 1 := by
        unfold DataGrid.ofModes
        simp [if_neg hne]
      rw [hg, hnth]
      omega
  · intro D L hL
    unfold Modes.invariant Modes.ofDataGrid
    simp only [if_neg (by omega : ¬ (L < 0)), List.length_map, List.length_range]
    push_cast [Int.toNat_of_nonneg hL]
    ring
  · intro m p hp
    have h2 : 2 * m.ellMax * p = 2 * (m.ellMax * p) := by ring
    have hne : 2 * m.ellMax * p + 1 ≠ 0 := by
      rw [h2]; generalize m.ellMax * p = q; omega
    unfold Modes.pow
    apply Modes.ofDataGrid_default_invariant
    have hnth : ((DataGrid.ofModes m (2 * m.ellMax * p + 1) (2 * m.ellMax * p + 1)).pow
        p).n_theta = 2 * m.ellMax * p + 1 := by
      unfold DataGrid.pow DataGrid.ofModes
      simp [if_neg hne]
    rw [hnth, h2]
    generalize hq : m.ellMax * p = q
    rw [hq] at hp
    omega

/-- Witness for claim C6 (amended) at concrete inputs. -/
theorem Modes.modes_invariant_amended_witness :
    Modes.invariant ((Modes.ofSize 4).SetEllMax 1)
    ∧ Modes.invariant ((Modes.ofSize 1).SetSpin 3)
    ∧ Modes.invariant (Modes.ofSpinData 2 (List.replicate 4 0))
    ∧ Modes.invariant
        { s := (0 : ℤ), ellMax := max 0 0,
          data := zipWithPad (fun x y => x + y) (List.replicate 1 (0 : ℂ))
            (List.replicate 1 (0 : ℂ)) }
    ∧ Modes.invariant
        { s := (0 : ℤ), ellMax := max 0 0,
          data := zipWithPad (fun x y => x - y) (List.replicate 1 (0 : ℂ))
            (List.replicate 1 (0 : ℂ)) }
    ∧ Modes.invariant ((Modes.ofSize 1).mul (Modes.ofSize 1))
    ∧ ((∃ e, (Modes.ofSize 1).div (Modes.ofSize 1) = Except.error e)
        ∨ (∃ c, (Modes.ofSize 1).div (Modes.ofSize 1) = Except.ok c ∧ c.invariant))
    ∧ Modes.invariant (Modes.ofDataGrid (DataGrid.ofSize 0) 0)
    ∧ Modes.invariant ((Modes.ofSize 1).pow 1) :=
  ⟨Modes.modes_invariant_amended.2.2.2.1 (Modes.ofSize 4) 1 (by decide),
   Modes.modes_invariant_amended.2.2.1 (Modes.ofSize 1) 3 Modes.modes_invariant_amended.1,
   Modes.modes_invariant_amended.2.2.2.2.1 2 (List.replicate 4 0) 1 (by decide),
   Modes.modes_invariant_amended.2.2.2.2.2.1 (Modes.ofSize 1) (Modes.ofSize 1) _
     (by decide) (by decide) Modes.modes_invariant_amended.1 Modes.modes_invariant_amended.1 rfl,
   Modes.modes_invariant_amended.2.2.2.2.2.2.1 (Modes.ofSize 1) (Modes.ofSize 1) _
     (by decide) (by decide) Modes.modes_invariant_amended.1 Modes.modes_invariant_amended.1 rfl,
   Modes.modes_invariant_amended.2.2.2.2.2.2.2.1 (Modes.ofSize 1) (Modes.ofSize 1)
     (by decide) (by decide),
   Modes.modes_invariant_amended.2.2.2.2.2.2.2.2.1 (Modes.ofSize 1) (Modes.ofSize 1)
     (by decide) (by decide),
   Modes.modes_invariant_amended.2.2.2.2.2.2.2.2.2.1 (DataGrid.ofSize 0) 0 (by decide),
   Modes.modes_invariant_amended.2.2.2.2.2.2.2.2.2.2 (Modes.ofSize 1) 1 (by decide)⟩

/-- Claim C7: the deprecated `WaveformAtAPointFT` constructor (the overload
taking `WindowNCycles` and separate `Vartheta`/`Varphi`) throws
`GWFrames_NotYetImplemented` for every combination of argument values and
never produces an object: there is no recovery and no fallback to the new
constructor. -/
theorem WaveformAtAPointFT.ofOldForm_always_throws
    (W : Waveform) (Dt Vartheta Varphi TotalMass : ℝ) (WindowNCycles : ℕ)
    (DetectorResponseAmp DetectorResponsePhase : ℝ) (ExtraZeroPadPowers : ℕ) :
    WaveformAtAPointFT.ofOldForm W Dt Vartheta Varphi TotalMass WindowNCycles
        DetectorResponseAmp DetectorResponsePhase ExtraZeroPadPowers
      = Except.error GWError.NotYetImplemented
    ∧ ∀ A : WaveformAtAPointFT,
        WaveformAtAPointFT.ofOldForm W Dt Vartheta Varphi TotalMass WindowNCycles
          DetectorResponseAmp DetectorResponsePhase ExtraZeroPadPowers ≠ Except.ok A :=
  ⟨rfl, fun A h => by simp [WaveformAtAPointFT.ofOldForm] at h⟩

/-- Claim C8: `Normalize` on an already-normalized object returns it at once
with every stored value unchanged, for every `InversePSD` argument — the
early return on `mNormalized` comes before the call to `SNR`, so the size
check inside `SNR` is never reached on that path. -/
theorem WaveformAtAPointFT.normalize_noop_when_normalized
    (A : WaveformAtAPointFT) (InversePSD : List ℝ) (h : A.IsNormalized = true) :
    A.Normalize InversePSD = Except.ok A := by
  unfold WaveformAtAPointFT.Normalize
  have hA : A.mNormalized = true := h
  rw [hA]
  simp

/-- Witness for claim C8 at a concrete normalized state and an `InversePSD`
whose size differs from `NFreq()`. -/
theorem WaveformAtAPointFT.normalize_noop_witness :
    WaveformAtAPointFT.Normalize
        { mDt := 0, mVartheta := 0, mVarphi := 0, mNormalized := true,
          mFreqs := [0], mRealF := [0], mImagF := [0] } []
      = Except.ok
        { mDt := 0, mVartheta := 0, mVarphi := 0, mNormalized := true,
          mFreqs := [0], mRealF := [0], mImagF := [0] }
    ∧ WaveformAtAPointFT.NFreq
        { mDt := 0, mVartheta := 0, mVarphi := 0, mNormalized := true,
          mFreqs := [0], mRealF := [0], mImagF := [0] }
      ≠ List.length ([] : List ℝ) :=
  ⟨WaveformAtAPointFT.normalize_noop_when_normalized
      { mDt := 0, mVartheta := 0, mVarphi := 0, mNormalized := true,
        mFreqs := [0], mRealF := [0], mImagF := [0] } [] rfl,
   by decide⟩

/-- Element `f` of `(List.range n).map g`, with default 0, is `g f` inside the
range and the default outside it. -/
theorem getD_range_map (n : ℕ) (g : ℕ → ℝ) (f : ℕ) :
    ((List.range n).map g).getD f 0 = if f < n then g f else 0 := by
  by_cases h : f < n
  · rw [if_pos h, List.getD_eq_getElem ((List.range n).map g) 0 (by simpa using h)]
    simp
  · rw [if_neg h]
    exact List.getD_eq_default _ _ (by simpa using Nat.le_of_not_lt h)

/-- Claim C10: after `ZeroAbove(Frequency)`, every bin `f` with
`|F(f)| > Frequency` holds zero in both the real and imaginary arrays, every
other bin keeps its previous value, and the frequency array, normalization
flag, stored angles, time step, and array lengths are all unchanged. -/
theorem WaveformAtAPointFT.zeroAbove_spec (A : WaveformAtAPointFT) (c : ℝ) (f : ℕ) :
    ((A.ZeroAbove c).mRealF.getD f 0
        = if f < A.NFreq ∧ |A.F f| > c then 0 else A.mRealF.getD f 0)
    ∧ ((A.ZeroAbove c).mImagF.getD f 0
        = if f < A.NFreq ∧ |A.F f| > c then 0 else A.mImagF.getD f 0)
    ∧ (A.ZeroAbove c).mFreqs = A.mFreqs
    ∧ (A.ZeroAbove c).mNormalized = A.mNormalized
    ∧ (A.ZeroAbove c).mVartheta = A.mVartheta
    ∧ (A.ZeroAbove c).mVarphi = A.mVarphi
    ∧ (A.ZeroAbove c).mDt = A.mDt
    ∧ (A.ZeroAbove c).mRealF.length = A.mRealF.length
    ∧ (A.ZeroAbove c).mImagF.length = A.mImagF.length := by
  refine ⟨?_, ?_, rfl, rfl, rfl, rfl, rfl,
    by simp [WaveformAtAPointFT.ZeroAbove],
    by simp [WaveformAtAPointFT.ZeroAbove]⟩
  · have h1 : (A.ZeroAbove c).mRealF = (List.range A.mRealF.length).map
        (fun g => if g < A.NFreq ∧ |A.F g| > c then 0 else A.mRealF.getD g 0) := rfl
    rw [h1, getD_range_map]
    by_cases hf : f < A.mRealF.length
    · rw [if_pos hf]
    · rw [if_neg hf, List.getD_eq_default A.mRealF 0 (Nat.le_of_not_lt hf)]
      exact (ite_self 0).symm
  · have h1 : (A.ZeroAbove c).mImagF = (List.range A.mImagF.length).map
        (fun g => if g < A.NFreq ∧ |A.F g| > c then 0 else A.mImagF.getD g 0) := rfl
    rw [h1, getD_range_map]
    by_cases hf : f < A.mImagF.length
    · rw [if_pos hf]
    · rw [if_neg hf, List.getD_eq_default A.mImagF 0 (Nat.le_of_not_lt hf)]
      exact (ite_self 0).symm

end GWFrames
